import Mathlib

/-!
Verification of the AIML_1013_Project1 churn-prediction pipeline.

This file gives a shallow embedding, in Lean, of the pipeline components of
the repository (data ingestion, data validation, data transformation, model
training, model evaluation, model pushing, and the orchestrating training
pipeline) and proves properties of the embedded code.

Modelling conventions:
- Python floats that only ever enter comparisons and subtractions (F1 scores,
  thresholds) are modelled as rationals.
- A raised Python exception is modelled with Except; custom_exception(e, sys)
  (exceptions/__init__.py) is modelled by the PError.wrapped constructor
  around the inner error, since it stores and re-raises the original message
  wrapped with location context.
- The local filesystem is an association list from path to file content;
  writing prepends, reading takes the most recent write.
- Calls into external libraries (pymongo extraction, sklearn estimators,
  evidently drift profiles, neuro_mf model search, SMOTEENN, boto3) are
  parameters of the embedded functions: the embedding fixes only the control
  and data flow that the repository itself contains.
- The repository mixes two package names for the same modules
  (AIML_1013_Project1 and telco_churn) and two names for the Mongo extractor
  (project1Data and TelcoData); the embedding treats these as the single
  module set present under the source tree, which is what every such
  reference evidently denotes.
-/

/-- Errors raised by the pipeline.  valueError and exception are plain Python
errors raised directly by repository code; typeError is the error a dataclass
constructor raises on a keyword that does not match any declared field;
libraryError stands for any failure inside an external library call; wrapped
is the project's custom_exception, which every component handler applies to
whatever escapes its try block. -/
inductive PError where
  | valueError (msg : String)
  | exception (msg : String)
  | typeError (msg : String)
  | libraryError (msg : String)
  | wrapped (inner : PError)
deriving Repr, DecidableEq

/-- True exactly on the wrapped (custom_exception) error kind. -/
def PError.isWrapped : PError → Bool
  | .wrapped _ => true
  | _ => false

/-- True on errors that are plain (not the wrapped custom_exception kind). -/
def PError.isPlain (e : PError) : Bool :=
  !e.isWrapped

/-- An except-clause of the shape seen in every component:
catch any exception e and re-raise custom_exception(e, sys). -/
def wrapErr {α : Type} : Except PError α → Except PError α
  | .ok a => .ok a
  | .error e => .error (.wrapped e)

/-- True when an Except value carries an error. -/
def isErr {α : Type} : Except PError α → Bool
  | .ok _ => false
  | .error _ => true

/-- The local filesystem: newest write first, per path. -/
def FS (Row : Type) : Type := List (String × List Row)

/-- Write a file: the new content shadows any previous content at the path. -/
def fswrite {Row : Type} (fs : FS Row) (path : String) (content : List Row) : FS Row :=
  (path, content) :: fs

/-- Read a file: the most recent write at the path, if any. -/
def fsread {Row : Type} (fs : FS Row) (path : String) : Option (List Row) :=
  (List.find? (fun kv => kv.fst == path) fs).map (fun kv => kv.snd)

/-! ## Data ingestion (components/data_ingestion.py) -/

/-- Configuration consumed by DataIngestion (entity/config_entity.py):
collection name, output paths, and the train/test split fraction
(source field train_test_split_ratio, passed to sklearn as test_size). -/
structure DataIngestionConfig where
  collection_name : String
  feature_store_file_path : String
  training_file_path : String
  testing_file_path : String
  train_test_split_frac : ℚ
deriving Repr, DecidableEq

/-- Artifact produced by ingestion (entity/artifact_entity.py). -/
structure DataIngestionArtifact where
  trained_file_path : String
  test_file_path : String
deriving Repr, DecidableEq

/-- sklearn.model_selection.train_test_split with test_size a fraction:
the row multiset is permuted (the permutation is the shuffle parameter,
supplied by the caller of the embedding), the first ceil(test_size * n)
rows of the permuted data form the test set and the rest form the train
set.  Returns (train_set, test_set) as the source destructures it. -/
def train_test_split {Row : Type} (df : List Row) (test_size : ℚ)
    (shuffled : List Row) : List Row × List Row :=
  let n_test : ℕ := (Int.ceil (test_size * (df.length : ℚ))).toNat
  (shuffled.drop n_test, shuffled.take n_test)

/-- DataIngestion.export_data_into_feature_store: pull the collection as a
dataframe (external call, passed in as export_df), write it to the feature
store path, and return it.  The try block wraps any escaping error. -/
def export_data_into_feature_store {Row : Type} (cfg : DataIngestionConfig)
    (export_df : Except PError (List Row)) (fs : FS Row) :
    FS Row × Except PError (List Row) :=
  match export_df with
  | .error e => (fs, .error (.wrapped e))
  | .ok df => (fswrite fs cfg.feature_store_file_path df, .ok df)

/-- DataIngestion.split_data_as_train_test: raise ValueError on an empty
dataframe; otherwise split and write the two result files.  The source
writes the train set to testing_file_path and then the test set to
testing_file_path (data_ingestion.py lines 70-71), so the training path is
never written.  The enclosing handler wraps any escaping error. -/
def split_data_as_train_test {Row : Type} (cfg : DataIngestionConfig)
    (df : List Row) (shuffle : List Row → List Row) (fs : FS Row) :
    FS Row × Except PError Unit :=
  if df.isEmpty then
    (fs, .error (.wrapped (.valueError
      "The dataframe is empty. Please check the data loading process.")))
  else
    let split := train_test_split df cfg.train_test_split_frac (shuffle df)
    let train_set := split.fst
    let test_set := split.snd
    let fs1 := fswrite fs cfg.testing_file_path train_set
    let fs2 := fswrite fs1 cfg.testing_file_path test_set
    (fs2, .ok ())

/-- DataIngestion.initiate_data_ingestion: export to the feature store,
raise ValueError if the fetched dataframe is empty, split into train and
test files, and return the artifact naming the configured train and test
paths.  Every error escaping the try block is wrapped once more by the
method's own handler. -/
def initiate_data_ingestion {Row : Type} (cfg : DataIngestionConfig)
    (export_df : Except PError (List Row)) (shuffle : List Row → List Row)
    (fs : FS Row) : FS Row × Except PError DataIngestionArtifact :=
  match export_data_into_feature_store cfg export_df fs with
  | (fs1, .error e) => (fs1, .error (.wrapped e))
  | (fs1, .ok df) =>
    if df.isEmpty then
      (fs1, .error (.wrapped (.valueError
        "The dataframe fetched from Mongo is empty. Please check the data loading process")))
    else
      match split_data_as_train_test cfg df shuffle fs1 with
      | (fs2, .error e) => (fs2, .error (.wrapped e))
      | (fs2, .ok _) =>
        (fs2, .ok ⟨cfg.training_file_path, cfg.testing_file_path⟩)

/-! ## Data validation (components/data_validation.py) -/

/-- The schema descriptor as consulted by DataValidation (config/schema.yaml):
the declared column list and the required numerical and categorical columns. -/
structure Schema where
  columns : List String
  numerical_columns : List String
  categorical_columns : List String
deriving Repr, DecidableEq

/-- DataValidation.validate_number_of_columns: the dataframe passes iff its
column count equals the count declared by the schema. -/
def validate_number_of_columns (schema : Schema) (cols : List String) : Bool :=
  cols.length == schema.columns.length

/-- DataValidation.is_column_exist: collect the schema's numerical and
categorical columns missing from the dataframe; the check passes iff both
lists are empty. -/
def is_column_exist (schema : Schema) (cols : List String) : Bool :=
  let missing_numerical_columns :=
    schema.numerical_columns.filter (fun column => !(cols.contains column))
  let missing_categorical_columns :=
    schema.categorical_columns.filter (fun column => !(cols.contains column))
  if missing_categorical_columns.length > 0 || missing_numerical_columns.length > 0 then
    false
  else
    true

/-- The validation_error_msg accumulated by initiate_data_validation
(data_validation.py lines 291-318): each failed check appends a fixed
message fragment. -/
def validation_error_msg (schema : Schema) (trainCols testCols : List String) : String :=
  let m := ""
  let m := if validate_number_of_columns schema trainCols then m
    else m ++ "Columns are missing in training dataframe."
  let m := if validate_number_of_columns schema testCols then m
    else m ++ "Columns are missing in test dataframe."
  let m := if is_column_exist schema trainCols then m
    else m ++ "Columns are missing in training dataframe."
  let m := if is_column_exist schema testCols then m
    else m ++ "columns are missing in test dataframe."
  m

/-- The overall validation status: true iff the accumulated error message is
empty (data_validation.py line 321). -/
def validation_status_of (schema : Schema) (trainCols testCols : List String) : Bool :=
  (validation_error_msg schema trainCols testCols).length == 0

/-- Values carried by dataclass fields in the embedding. -/
inductive PyValue where
  | boolV (b : Bool)
  | strV (s : String)
  | ratV (q : ℚ)
deriving Repr, DecidableEq

/-- A Python dataclass-generated constructor called with keyword arguments:
it succeeds iff every keyword names a declared field and every declared field
receives a keyword, and raises TypeError otherwise. -/
def dataclass_init (fields : List String) (kwargs : List (String × PyValue)) :
    Except PError (List (String × PyValue)) :=
  if kwargs.all (fun kv => fields.contains kv.fst)
      && fields.all (fun f => kwargs.any (fun kv => kv.fst == f)) then
    .ok kwargs
  else
    .error (.typeError "got an unexpected or missing keyword argument")

/-- The fields declared by the DataValidationArtifact dataclass
(entity/artifact_entity.py lines 9-13). -/
def dataValidationArtifactFields : List String :=
  ["validation_status", "message", "drift_report_path"]

/-- Observable outcome of one initiate_data_validation run: whether the
drift computation was executed, whether the drift report side file was
written, and the returned artifact or raised error. -/
structure ValidationRun where
  drift_ran : Bool
  report_written : Bool
  result : Except PError (List (String × PyValue))
deriving Repr

/-- DataValidation.initiate_data_validation: read both dataframes, run the
two schema checks on each, accumulate the error message, and compute the
overall status.  Only when the status is true does detect_dataset_drift run
(writing the per-feature report to the side file and returning the
dataset-level flag, modelled by the drift_status parameter), after which the
message is replaced by the drift verdict.  The DataValidationArtifact is then
constructed with the keyword drift_report_file_path, which is not a declared
field of the dataclass, so the construction raises TypeError; the enclosing
handler wraps whatever escapes. -/
def initiate_data_validation (schema : Schema)
    (train_read test_read : Except PError (List String))
    (drift_status : Bool) (drift_report_file_path : String) : ValidationRun :=
  match train_read with
  | .error e => ⟨false, false, .error (.wrapped e)⟩
  | .ok trainCols =>
  match test_read with
  | .error e => ⟨false, false, .error (.wrapped e)⟩
  | .ok testCols =>
    let msg := validation_error_msg schema trainCols testCols
    let validation_status := msg.length == 0
    let finalMsg :=
      if validation_status then
        if drift_status then "Drift detected" else "Drift not detected"
      else msg
    let construct := dataclass_init dataValidationArtifactFields
      [("validation_status", .boolV validation_status),
       ("message", .strV finalMsg),
       ("drift_report_file_path", .strV drift_report_file_path)]
    ⟨validation_status, validation_status, wrapErr construct⟩

/-! ## Data transformation (components/data_transformation.py) -/

/-- TARGET_COLUMN from constants/__init__.py. -/
def TARGET_COLUMN : String := "Churn"

/-- Output paths of the transformation stage (entity/config_entity.py, as
consumed by data_transformation.py). -/
structure DataTransformationConfig where
  transformed_object_file_path : String
  transformed_train_file_path : String
  transformed_test_file_path : String
deriving Repr, DecidableEq

/-- Artifact returned by the transformation stage (entity/artifact_entity.py). -/
structure DataTransformationArtifact where
  transformed_object_file_path : String
  transformed_train_file_path : String
  transformed_test_file_path : String
deriving Repr, DecidableEq

/-- The DataValidationArtifact dataclass as declared
(entity/artifact_entity.py lines 9-13), consumed by the transformation stage
and the pipeline. -/
structure DataValidationArtifact where
  validation_status : Bool
  message : String
  drift_report_path : String
deriving Repr, DecidableEq

/-- A dataframe viewed column-wise: column name paired with its values. -/
def Df (V : Type) : Type := List (String × List V)

/-- pandas drop(columns=cols): remove the named columns. -/
def dropDfCols {V : Type} (df : Df V) (cols : List String) : Df V :=
  df.filter (fun kv => !(cols.contains kv.fst))

/-- Select one column of a dataframe (df[c]); empty when absent. -/
def getDfCol {V : Type} (df : Df V) (c : String) : List V :=
  ((List.find? (fun kv => kv.fst == c) df).map (fun kv => kv.snd)).getD []

/-- Observable outcome of one initiate_data_transformation run: the fitted
preprocessor (fitted by fit_transform on the training features), the arrays
the preprocessor produced on the train and test features, what was persisted,
and the returned artifact or raised error. -/
structure TransformationRun (F A Arr : Type) where
  fitted : Option F
  train_arr_pre : Option A
  test_arr_pre : Option A
  saved_object : Option F
  saved_train : Option Arr
  saved_test : Option Arr
  result : Except PError DataTransformationArtifact

/-- DataTransformation.initiate_data_transformation: gated on the validation
artifact's status.  When the gate passes: read both dataframes; for each,
drop the target column, keep the target series, drop the schema's
drop_columns, and remap the target labels (targetMap stands for
TargetValueMapping); fit the ColumnTransformer on the training features only
(fit is the external fitting step, preprocessor.fit_transform) and apply the
resulting fitted transformer (applyT) to the training and to the test
features; rebalance each split with SMOTEENN (smt); concatenate features
with the target (concat, np.c_); persist the fitted preprocessor and both
arrays; return the artifact of output paths.  When the gate fails, raise a
plain Exception carrying the validation message, wrapped by the handler. -/
def initiate_data_transformation {V F A Arr : Type}
    (cfg : DataTransformationConfig) (va : DataValidationArtifact)
    (drop_cols : List String)
    (fit : Df V → F) (applyT : F → Df V → A)
    (targetMap : V → V)
    (smt : A → List V → A × List V)
    (concat : A → List V → Arr)
    (train_read test_read : Except PError (Df V)) :
    TransformationRun F A Arr :=
  if va.validation_status then
    match train_read with
    | .error e => ⟨none, none, none, none, none, none, .error (.wrapped e)⟩
    | .ok train_df =>
    match test_read with
    | .error e => ⟨none, none, none, none, none, none, .error (.wrapped e)⟩
    | .ok test_df =>
      let input_feature_train_df := dropDfCols train_df [TARGET_COLUMN]
      let target_feature_train_df := getDfCol train_df TARGET_COLUMN
      let input_feature_train_df := dropDfCols input_feature_train_df drop_cols
      let target_feature_train_df := target_feature_train_df.map targetMap
      let input_feature_test_df := dropDfCols test_df [TARGET_COLUMN]
      let target_feature_test_df := getDfCol test_df TARGET_COLUMN
      let input_feature_test_df := dropDfCols input_feature_test_df drop_cols
      let target_feature_test_df := target_feature_test_df.map targetMap
      let preprocessor := fit input_feature_train_df
      let input_feature_train_arr := applyT preprocessor input_feature_train_df
      let input_feature_test_arr := applyT preprocessor input_feature_test_df
      let train_res := smt input_feature_train_arr target_feature_train_df
      let test_res := smt input_feature_test_arr target_feature_test_df
      let train_arr := concat train_res.fst train_res.snd
      let test_arr := concat test_res.fst test_res.snd
      ⟨some preprocessor, some input_feature_train_arr, some input_feature_test_arr,
       some preprocessor, some train_arr, some test_arr,
       .ok ⟨cfg.transformed_object_file_path, cfg.transformed_train_file_path,
            cfg.transformed_test_file_path⟩⟩
  else
    ⟨none, none, none, none, none, none, .error (.wrapped (.exception va.message))⟩

/-! ## Model trainer (components/model_trainer.py) -/

/-- Trainer configuration (entity/config_entity.py, as consumed by
model_trainer.py): the model bundle output path, the expected accuracy
threshold, and the model-search configuration file. -/
structure ModelTrainerConfig where
  trained_model_file_path : String
  expected_accuracy : ℚ
  model_config_file_path : String
deriving Repr, DecidableEq

/-- The metric record the trainer builds from sklearn scores
(model_trainer.py lines 95-97). -/
structure ClassificationMetricArtifact where
  f1_score : ℚ
  precision_score : ℚ
  recall_score : ℚ
deriving Repr, DecidableEq

/-- Artifact returned by the trainer (entity/artifact_entity.py shape as
constructed in model_trainer.py lines 147-150). -/
structure ModelTrainerArtifact where
  trained_model_file_path : String
  metric_artifact : ClassificationMetricArtifact
deriving Repr, DecidableEq

/-- The best-model detail returned by the external model factory
(neuro_mf), carrying the selected estimator and its score. -/
structure BestModelDetail (M : Type) where
  best_model : M
  best_score : ℚ

/-- The deployable model bundle: the fitted preprocessor composed with the
fitted estimator (entity/estimator.py, as constructed in model_trainer.py
lines 138-141). -/
structure TelcoModel (P M : Type) where
  preprocessing_object : P
  trained_model_object : M

/-- ModelTrainer.initiate_model_trainer: load the transformed train and test
arrays, delegate to get_model_object_and_report (the report parameter: the
outcome of the external model search plus sklearn metrics, including that
method's own error wrapping), load the fitted preprocessor, raise a plain
Exception when the best score is strictly below the expected accuracy, and
otherwise bundle preprocessor and estimator, persist the bundle, and return
the artifact.  The first component of the result lists every (path, bundle)
persisted by save_object; the method's handler wraps every escaping error. -/
def initiate_model_trainer {Arr P M : Type} (cfg : ModelTrainerConfig)
    (train_load test_load : Except PError Arr)
    (report : Arr → Arr → Except PError (BestModelDetail M × ClassificationMetricArtifact))
    (preprocessing_load : Except PError P) :
    List (String × TelcoModel P M) × Except PError ModelTrainerArtifact :=
  match train_load with
  | .error e => ([], .error (.wrapped e))
  | .ok train_arr =>
  match test_load with
  | .error e => ([], .error (.wrapped e))
  | .ok test_arr =>
  match report train_arr test_arr with
  | .error e => ([], .error (.wrapped e))
  | .ok (best_model_detail, metric_artifact) =>
  match preprocessing_load with
  | .error e => ([], .error (.wrapped e))
  | .ok preprocessing_obj =>
  if best_model_detail.best_score < cfg.expected_accuracy then
    ([], .error (.wrapped (.exception "No best model found with score more than base score")))
  else
    let telco_model : TelcoModel P M := ⟨preprocessing_obj, best_model_detail.best_model⟩
    ([(cfg.trained_model_file_path, telco_model)],
     .ok ⟨cfg.trained_model_file_path, metric_artifact⟩)

/-! ## Model evaluation (components/model_evaluation.py, entity/s3_estimator.py) -/

/-- Evaluation configuration (entity/config_entity.py, as consumed by
model_evaluation.py): the bucket and production-model key. -/
structure ModelEvaluationConfig where
  bucket_name : String
  s3_model_key_path : String
deriving Repr, DecidableEq

/-- EvaluateModelResponse (model_evaluation.py lines 27-46). -/
structure EvaluateModelResponse where
  trained_model_f1_score : ℚ
  best_model_f1_score : Option ℚ
  is_model_accepted : Bool
  difference : ℚ
deriving Repr, DecidableEq

/-- project1Estimator.is_model_present (s3_estimator.py lines 55-78): defer
to the storage layer's existence check (the avail parameter is its outcome;
the storage layer only ever raises the wrapped custom_exception kind); a
raised custom_exception is caught, printed and converted to False, while any
other error would propagate. -/
def is_model_present (avail : Except PError Bool) : Except PError Bool :=
  match avail with
  | .ok b => .ok b
  | .error e => if e.isWrapped then .ok false else .error e

/-- ModelEvaluation.get_best_model (model_evaluation.py lines 77-101):
build the estimator and return it when is_model_present holds, None
otherwise; the try block wraps any escaping error.  The returned Bool stands
for the Optional estimator: true for Some(estimator), false for None. -/
def get_best_model (avail : Except PError Bool) : Except PError Bool :=
  wrapErr (is_model_present avail)

/-- The EvaluateModelResponse built at model_evaluation.py lines 143-148:
the baseline tmp_best_model_score is 0 when no production score exists,
acceptance compares strictly, and difference is trained minus baseline. -/
def mkEvaluateModelResponse (trained_model_f1_score : ℚ)
    (best_model_f1_score : Option ℚ) : EvaluateModelResponse :=
  let tmp_best_model_score : ℚ :=
    match best_model_f1_score with
    | none => 0
    | some s => s
  ⟨trained_model_f1_score, best_model_f1_score,
   decide (trained_model_f1_score > tmp_best_model_score),
   trained_model_f1_score - tmp_best_model_score⟩

/-- ModelEvaluation.evaluate_model (model_evaluation.py lines 103-153):
take the new model's F1 from the trainer artifact; fetch the production
model via get_best_model (avail is the storage existence-check outcome);
when present, score it on the raw test set (prod_f1 is the outcome of that
external predict-and-score step); compare against the baseline.  The
method's handler wraps any escaping error. -/
def evaluate_model (trained_model_f1_score : ℚ) (avail : Except PError Bool)
    (prod_f1 : Except PError ℚ) : Except PError EvaluateModelResponse :=
  wrapErr
    (match get_best_model avail with
     | .error e => .error e
     | .ok false => .ok (mkEvaluateModelResponse trained_model_f1_score none)
     | .ok true =>
       match prod_f1 with
       | .error e => .error e
       | .ok s => .ok (mkEvaluateModelResponse trained_model_f1_score (some s)))

/-- The ModelEvaluationArtifact dataclass as declared
(entity/artifact_entity.py lines 37-43). -/
structure ModelEvaluationArtifact where
  is_model_accepted : Bool
  changed_accuracy : ℚ
  changed_rmse : ℚ
  s3_model_path : String
  trained_model_path : String
deriving Repr, DecidableEq

/-- The fields declared by the ModelEvaluationArtifact dataclass
(entity/artifact_entity.py lines 37-43). -/
def modelEvaluationArtifactFields : List String :=
  ["is_model_accepted", "changed_accuracy", "changed_rmse",
   "s3_model_path", "trained_model_path"]

/-- ModelEvaluation.initiate_model_evaluation (model_evaluation.py lines
155-186): run evaluate_model, then construct the ModelEvaluationArtifact by
keyword.  The call site passes no changed_rmse keyword although the
dataclass declares that field, so the construction raises TypeError whenever
evaluation itself succeeds; the handler wraps whatever escapes. -/
def initiate_model_evaluation (cfg : ModelEvaluationConfig)
    (trained_model_f1_score : ℚ) (trained_model_path : String)
    (avail : Except PError Bool) (prod_f1 : Except PError ℚ) :
    Except PError (List (String × PyValue)) :=
  wrapErr
    (match evaluate_model trained_model_f1_score avail prod_f1 with
     | .error e => .error e
     | .ok r =>
       dataclass_init modelEvaluationArtifactFields
         [("is_model_accepted", .boolV r.is_model_accepted),
          ("s3_model_path", .strV cfg.s3_model_key_path),
          ("trained_model_path", .strV trained_model_path),
          ("changed_accuracy", .ratV r.difference)])

/-! ## Model pusher (components/model_pusher.py) -/

/-- Pusher configuration (entity/config_entity.py, as consumed by
model_pusher.py): the registry bucket and the fixed model key. -/
structure ModelPusherConfig where
  bucket_name : String
  s3_model_key_path : String
deriving Repr, DecidableEq

/-- Artifact returned by the pusher (entity/artifact_entity.py). -/
structure ModelPusherArtifact where
  bucket_name : String
  s3_model_path : String
deriving Repr, DecidableEq

/-- One upload to remote storage: the local source file and the destination
bucket and key. -/
structure S3Upload where
  from_file : String
  bucket_name : String
  to_key : String
deriving Repr, DecidableEq

/-- ModelPusher.initiate_model_pusher: upload the trained model file named
by the evaluation artifact to the configured bucket at the fixed registry
key (save_model, s3_estimator.py lines 96-120), then return the artifact
naming that destination.  The first component records the upload the run
performed; upload_outcome is the external storage call's outcome, and the
handler wraps any escaping error. -/
def initiate_model_pusher (cfg : ModelPusherConfig)
    (model_evaluation_artifact : ModelEvaluationArtifact)
    (upload_outcome : S3Upload → Except PError Unit) :
    List S3Upload × Except PError ModelPusherArtifact :=
  let up : S3Upload :=
    ⟨model_evaluation_artifact.trained_model_path, cfg.bucket_name, cfg.s3_model_key_path⟩
  match upload_outcome up with
  | .error e => ([up], .error (.wrapped e))
  | .ok _ => ([up], .ok ⟨cfg.bucket_name, cfg.s3_model_key_path⟩)

/-! ## Training pipeline (pipeline/training_pipeline.py) -/

/-- The six stages wired by TrainPipeline.run_pipeline, each modelled by its
outcome as a function of the artifacts the source passes to it.  The pusher
stage additionally reports the uploads it performed. -/
structure PipelineStages where
  ingestion : Except PError DataIngestionArtifact
  validation : DataIngestionArtifact → Except PError DataValidationArtifact
  transformation : DataIngestionArtifact → DataValidationArtifact →
    Except PError DataTransformationArtifact
  trainer : DataTransformationArtifact → Except PError ModelTrainerArtifact
  evaluation : DataIngestionArtifact → ModelTrainerArtifact →
    Except PError ModelEvaluationArtifact
  pusher : ModelEvaluationArtifact → List S3Upload × Except PError ModelPusherArtifact

/-- TrainPipeline.run_pipeline (training_pipeline.py lines 275-319): run the
stages strictly in sequence, abort on the first failure (the outer handler
wraps it), return early with no pusher call when the evaluation artifact's
is_model_accepted flag is false, and otherwise invoke the pusher.  The first
component collects every upload to remote storage the run performed: only
the pusher stage uploads. -/
def run_pipeline (st : PipelineStages) : List S3Upload × Except PError Unit :=
  match st.ingestion with
  | .error e => ([], .error (.wrapped e))
  | .ok data_ingestion_artifact =>
  match st.validation data_ingestion_artifact with
  | .error e => ([], .error (.wrapped e))
  | .ok data_validation_artifact =>
  match st.transformation data_ingestion_artifact data_validation_artifact with
  | .error e => ([], .error (.wrapped e))
  | .ok data_transformation_artifact =>
  match st.trainer data_transformation_artifact with
  | .error e => ([], .error (.wrapped e))
  | .ok model_trainer_artifact =>
  match st.evaluation data_ingestion_artifact model_trainer_artifact with
  | .error e => ([], .error (.wrapped e))
  | .ok model_evaluation_artifact =>
  if !model_evaluation_artifact.is_model_accepted then
    ([], .ok ())
  else
    match st.pusher model_evaluation_artifact with
    | (ups, .error e) => (ups, .error (.wrapped e))
    | (ups, .ok _) => (ups, .ok ())

/-! ## Claims -/

/-- C1: for every evaluation run, the new model is accepted iff its F1
score strictly exceeds the baseline, where the baseline is the production
model's F1 on the same test set when a production model exists and 0 when
none exists; when the new F1 equals the baseline the model is rejected; and
the reported difference equals the new F1 minus the baseline. -/
theorem evaluate_model_accepts_iff_strictly_above_baseline
    (t p : ℚ) (present : Bool) :
    evaluate_model t (.ok present) (.ok p) =
      .ok (mkEvaluateModelResponse t (if present then some p else none))
    ∧ ((mkEvaluateModelResponse t (if present then some p else none)).is_model_accepted = true
        ↔ t > (if present then p else 0))
    ∧ (mkEvaluateModelResponse t (if present then some p else none)).difference
        = t - (if present then p else 0)
    ∧ (mkEvaluateModelResponse (if present then p else 0)
        (if present then some p else none)).is_model_accepted = false := by
  cases present <;>
    simp [evaluate_model, get_best_model, is_model_present, wrapErr,
      mkEvaluateModelResponse]

/-- C10: when the remote-storage existence check fails with the project's
wrapped error kind, is_model_present converts the failure to False instead
of propagating it, so evaluation proceeds as if no production model exists:
the baseline is 0 and the new model is accepted exactly when its F1 exceeds
0. -/
theorem is_model_present_swallows_wrapped_error
    (t : ℚ) (e : PError) (prod_f1 : Except PError ℚ) :
    is_model_present (.error (.wrapped e)) = .ok false
    ∧ evaluate_model t (.error (.wrapped e)) prod_f1 =
        .ok (mkEvaluateModelResponse t none)
    ∧ ((mkEvaluateModelResponse t none).is_model_accepted = true ↔ t > 0)
    ∧ (mkEvaluateModelResponse t none).difference = t - 0 := by
  simp [evaluate_model, get_best_model, is_model_present, wrapErr,
    PError.isWrapped, mkEvaluateModelResponse]

set_option maxRecDepth 8192 in
/-- The accumulated validation message is empty exactly when all four schema
checks pass: each failing check appends a fixed nonempty fragment and no
check removes text. -/
theorem validation_error_msg_empty_iff (schema : Schema) (trainCols testCols : List String) :
    ((validation_error_msg schema trainCols testCols).length == 0)
      = (validate_number_of_columns schema trainCols
         && (validate_number_of_columns schema testCols
         && (is_column_exist schema trainCols
         && is_column_exist schema testCols))) := by
  unfold validation_error_msg
  cases h1 : validate_number_of_columns schema trainCols <;>
  cases h2 : validate_number_of_columns schema testCols <;>
  cases h3 : is_column_exist schema trainCols <;>
  cases h4 : is_column_exist schema testCols <;>
  simp only [h1, h2, h3, h4, Bool.false_eq_true, if_false, if_true, Bool.and_self,
    Bool.and_true, Bool.and_false, Bool.true_and, Bool.false_and, if_neg, if_pos] <;>
  rfl

/-- C5: whenever the column count of the train or the test dataframe
differs from the number of columns the schema declares, the computed
validation status is false, regardless of the dataframes' contents (the
status depends only on the column lists). -/
theorem validation_status_false_on_column_count_mismatch
    (schema : Schema) (trainCols testCols : List String)
    (h : trainCols.length ≠ schema.columns.length
         ∨ testCols.length ≠ schema.columns.length) :
    validation_status_of schema trainCols testCols = false := by
  unfold validation_status_of
  rw [validation_error_msg_empty_iff]
  rcases h with h | h
  · have hv : validate_number_of_columns schema trainCols = false := by
      simp [validate_number_of_columns, h]
    simp [hv]
  · have hv : validate_number_of_columns schema testCols = false := by
      simp [validate_number_of_columns, h]
    simp [hv]

/-- C5 witness: a schema declaring one column rejects an empty train
column list. -/
theorem validation_status_false_on_column_count_mismatch_witness :
    ([] : List String).length ≠ (["gender"] : List String).length
    ∧ validation_status_of ⟨["gender"], [], []⟩ [] ["gender"] = false :=
  ⟨by decide,
   validation_status_false_on_column_count_mismatch ⟨["gender"], [], []⟩ [] ["gender"]
     (Or.inl (by decide))⟩

/-- C6: the dataset-drift computation (with its side-file report write)
executes exactly when the column-count check and the required-column check
both pass for both dataframes; when any schema check fails, no drift
computation runs and no report is written. -/
theorem drift_runs_iff_all_schema_checks_pass
    (schema : Schema) (trainCols testCols : List String)
    (drift_status : Bool) (report_path : String) :
    ((initiate_data_validation schema (.ok trainCols) (.ok testCols)
        drift_status report_path).drift_ran
      = (validate_number_of_columns schema trainCols
         && (validate_number_of_columns schema testCols
         && (is_column_exist schema trainCols
         && is_column_exist schema testCols))))
    ∧ ((initiate_data_validation schema (.ok trainCols) (.ok testCols)
        drift_status report_path).report_written
      = (initiate_data_validation schema (.ok trainCols) (.ok testCols)
        drift_status report_path).drift_ran) := by
  constructor
  · show ((validation_error_msg schema trainCols testCols).length == 0) = _
    exact validation_error_msg_empty_iff schema trainCols testCols
  · rfl

/-- C9: initiate_data_validation raises on every input instead of returning
an artifact: when either dataframe read fails the error propagates wrapped,
and otherwise the DataValidationArtifact construction is called with the
keyword drift_report_file_path, which the dataclass (whose declared fields
are validation_status, message and drift_report_path) rejects with
TypeError, wrapped by the handler — regardless of the validation outcome. -/
theorem initiate_data_validation_always_raises :
    (∀ (schema : Schema) (tr te : Except PError (List String))
       (drift_status : Bool) (report_path : String),
       isErr (initiate_data_validation schema tr te drift_status report_path).result = true)
    ∧ (∀ (schema : Schema) (trainCols testCols : List String)
       (drift_status : Bool) (report_path : String),
       (initiate_data_validation schema (.ok trainCols) (.ok testCols)
          drift_status report_path).result
         = .error (.wrapped (.typeError "got an unexpected or missing keyword argument"))) := by
  constructor
  · intro schema tr te drift_status report_path
    cases tr with
    | error e => rfl
    | ok trainCols =>
      cases te with
      | error e => rfl
      | ok testCols =>
        simp [initiate_data_validation, dataclass_init, dataValidationArtifactFields,
          wrapErr, isErr]
  · intro schema trainCols testCols drift_status report_path
    simp [initiate_data_validation, dataclass_init, dataValidationArtifactFields,
      wrapErr]

/-- C8: when the array loads and the model search succeed,
initiate_model_trainer raises exactly when the best model's score is
strictly below the configured expected accuracy (a score equal to the
threshold passes), and when it raises nothing is persisted to the
trained-model path, because the guard precedes the save. -/
theorem initiate_model_trainer_raises_iff_below_threshold
    {Arr P M : Type} (cfg : ModelTrainerConfig) (ta te : Arr)
    (train_load test_load : Except PError Arr)
    (report : Arr → Arr → Except PError (BestModelDetail M × ClassificationMetricArtifact))
    (preprocessing_load : Except PError P)
    (detail : BestModelDetail M) (metric : ClassificationMetricArtifact) (p : P)
    (h1 : train_load = .ok ta) (h2 : test_load = .ok te)
    (h3 : report ta te = .ok (detail, metric)) (h4 : preprocessing_load = .ok p) :
    (isErr (initiate_model_trainer cfg train_load test_load report preprocessing_load).snd = true
       ↔ detail.best_score < cfg.expected_accuracy)
    ∧ (detail.best_score < cfg.expected_accuracy →
        initiate_model_trainer cfg train_load test_load report preprocessing_load
          = ([], .error (.wrapped
              (.exception "No best model found with score more than base score"))))
    ∧ (cfg.expected_accuracy ≤ detail.best_score →
        initiate_model_trainer cfg train_load test_load report preprocessing_load
          = ([(cfg.trained_model_file_path, ⟨p, detail.best_model⟩)],
             .ok ⟨cfg.trained_model_file_path, metric⟩)) := by
  subst h1 h2 h4
  simp only [initiate_model_trainer, h3]
  by_cases hlt : detail.best_score < cfg.expected_accuracy
  · simp [hlt, isErr]
  · simp [hlt, isErr, not_lt.mp hlt]

/-- C8 witness: with a best score equal to the threshold the trainer saves
the bundle and returns the artifact, and the raise-iff-below equivalence is
exercised at that boundary input. -/
theorem initiate_model_trainer_raises_iff_below_threshold_witness :
    (isErr (@initiate_model_trainer ℕ ℕ ℕ
        ⟨"model.pkl", 1/2, "model.yaml"⟩ (.ok 0) (.ok 1)
        (fun _ _ => .ok (⟨7, 1/2⟩, ⟨3/5, 3/5, 3/5⟩)) (.ok 9)).snd = true
       ↔ (⟨7, (1:ℚ)/2⟩ : BestModelDetail ℕ).best_score < (1:ℚ)/2)
    ∧ ((⟨7, (1:ℚ)/2⟩ : BestModelDetail ℕ).best_score < (1:ℚ)/2 →
        @initiate_model_trainer ℕ ℕ ℕ
          ⟨"model.pkl", 1/2, "model.yaml"⟩ (.ok 0) (.ok 1)
          (fun _ _ => .ok (⟨7, 1/2⟩, ⟨3/5, 3/5, 3/5⟩)) (.ok 9)
          = ([], .error (.wrapped
              (.exception "No best model found with score more than base score"))))
    ∧ ((1:ℚ)/2 ≤ (⟨7, (1:ℚ)/2⟩ : BestModelDetail ℕ).best_score →
        @initiate_model_trainer ℕ ℕ ℕ
          ⟨"model.pkl", 1/2, "model.yaml"⟩ (.ok 0) (.ok 1)
          (fun _ _ => .ok (⟨7, 1/2⟩, ⟨3/5, 3/5, 3/5⟩)) (.ok 9)
          = ([("model.pkl", ⟨9, 7⟩)], .ok ⟨"model.pkl", ⟨3/5, 3/5, 3/5⟩⟩)) :=
  initiate_model_trainer_raises_iff_below_threshold
    ⟨"model.pkl", 1/2, "model.yaml"⟩ 0 1 (.ok 0) (.ok 1)
    (fun _ _ => .ok (⟨7, 1/2⟩, ⟨3/5, 3/5, 3/5⟩)) (.ok 9)
    ⟨7, 1/2⟩ ⟨3/5, 3/5, 3/5⟩ 9 rfl rfl rfl rfl

/-- C3: evaluation of the ingestion split at a concrete input.  On the
two-row dataframe [10, 20] with split fraction 1/2 and identity shuffle,
ingestion succeeds and returns the artifact naming train.csv and test.csv,
yet the file at the artifact's training path was never written, the file at
the artifact's test path holds only the test split [10], and the persisted
row counts sum to 1, not to the ingested count 2: split_data_as_train_test
writes the train set and then the test set both to testing_file_path
(data_ingestion.py lines 70-71). -/
theorem split_persists_both_sets_to_testing_path :
    (initiate_data_ingestion ⟨"telco", "fs.csv", "train.csv", "test.csv", 1/2⟩
        (.ok [10, 20]) id ([] : FS ℕ)).snd
      = .ok ⟨"train.csv", "test.csv"⟩
    ∧ fsread (initiate_data_ingestion ⟨"telco", "fs.csv", "train.csv", "test.csv", 1/2⟩
        (.ok [10, 20]) id ([] : FS ℕ)).fst "train.csv" = none
    ∧ fsread (initiate_data_ingestion ⟨"telco", "fs.csv", "train.csv", "test.csv", 1/2⟩
        (.ok [10, 20]) id ([] : FS ℕ)).fst "test.csv" = some [10]
    ∧ ((fsread (initiate_data_ingestion ⟨"telco", "fs.csv", "train.csv", "test.csv", 1/2⟩
          (.ok [10, 20]) id ([] : FS ℕ)).fst "train.csv").getD []).length
      + ((fsread (initiate_data_ingestion ⟨"telco", "fs.csv", "train.csv", "test.csv", 1/2⟩
          (.ok [10, 20]) id ([] : FS ℕ)).fst "test.csv").getD []).length = 1 := by
  have hsplit : train_test_split ([10, 20] : List ℕ) ((2:ℚ)⁻¹) [10, 20] = ([20], [10]) := by
    unfold train_test_split
    norm_num
  refine ⟨?_, ?_, ?_, ?_⟩ <;>
    simp [initiate_data_ingestion, export_data_into_feature_store,
      split_data_as_train_test, hsplit, fswrite, fsread]

/-- Projects the error out of an Except outcome. -/
def errOf {α : Type} : Except PError α → Option PError
  | .ok _ => none
  | .error e => some e

/-- C4 counterexample: on an empty extracted dataset the error that leaves
initiate_data_ingestion is the wrapped generic kind (custom_exception
around the ValueError), not a plain error: the plain ValueError raised at
the check is caught by the method's own blanket handler and re-raised
wrapped. -/
theorem empty_dataset_error_propagates_wrapped :
    (initiate_data_ingestion ⟨"telco", "fs.csv", "train.csv", "test.csv", 1/4⟩
        (.ok ([] : List ℕ)) id ([] : FS ℕ)).snd
      = .error (.wrapped (.valueError
          "The dataframe fetched from Mongo is empty. Please check the data loading process"))
    ∧ (errOf (initiate_data_ingestion ⟨"telco", "fs.csv", "train.csv", "test.csv", 1/4⟩
        (.ok ([] : List ℕ)) id ([] : FS ℕ)).snd).map PError.isPlain = some false := by
  exact ⟨rfl, rfl⟩

/-- C4 as amended: the two business-rule failures abort the run, each
raised as a plain error at its origin (ValueError for the empty dataset,
Exception for the below-threshold best model) but caught by the enclosing
blanket handler and propagated as the wrapped generic error kind; and the
empty-dataset failure occurs before any train/test split is performed or
written — the returned filesystem carries only the feature-store write. -/
theorem business_rule_failures_abort_wrapped
    {Row Arr P M : Type} (cfg : DataIngestionConfig)
    (shuffle : List Row → List Row) (fs : FS Row)
    (tcfg : ModelTrainerConfig) (ta te : Arr)
    (report : Arr → Arr → Except PError (BestModelDetail M × ClassificationMetricArtifact))
    (detail : BestModelDetail M) (metric : ClassificationMetricArtifact) (p : P)
    (h3 : report ta te = .ok (detail, metric))
    (hlt : detail.best_score < tcfg.expected_accuracy) :
    initiate_data_ingestion cfg (.ok ([] : List Row)) shuffle fs
      = (fswrite fs cfg.feature_store_file_path [],
         .error (.wrapped (.valueError
           "The dataframe fetched from Mongo is empty. Please check the data loading process")))
    ∧ initiate_model_trainer tcfg (.ok ta) (.ok te) report (.ok p)
      = ([], .error (.wrapped
          (.exception "No best model found with score more than base score"))) := by
  constructor
  · rfl
  · simp only [initiate_model_trainer, h3]
    simp [hlt]

/-- C4 amended witness: concrete empty dataset and a best score of 2/5
against a threshold of 1/2. -/
theorem business_rule_failures_abort_wrapped_witness :
    initiate_data_ingestion ⟨"telco", "fs.csv", "train.csv", "test.csv", 1/4⟩
        (.ok ([] : List ℕ)) id ([] : FS ℕ)
      = (fswrite ([] : FS ℕ) "fs.csv" [],
         .error (.wrapped (.valueError
           "The dataframe fetched from Mongo is empty. Please check the data loading process")))
    ∧ @initiate_model_trainer ℕ ℕ ℕ
        ⟨"model.pkl", 1/2, "model.yaml"⟩ (.ok 0) (.ok 1)
        (fun _ _ => .ok (⟨7, 2/5⟩, ⟨2/5, 2/5, 2/5⟩)) (.ok 9)
      = ([], .error (.wrapped
          (.exception "No best model found with score more than base score"))) :=
  business_rule_failures_abort_wrapped
    ⟨"telco", "fs.csv", "train.csv", "test.csv", 1/4⟩ id ([] : FS ℕ)
    ⟨"model.pkl", 1/2, "model.yaml"⟩ 0 1
    (fun _ _ => .ok (⟨7, 2/5⟩, ⟨2/5, 2/5, 2/5⟩)) ⟨7, 2/5⟩ ⟨2/5, 2/5, 2/5⟩ 9
    rfl (by norm_num)

/-- C7: in every transformation run that passes the validation gate, the
preprocessor is fitted only on the training features (target column and
schema drop columns removed), the test features are transformed with exactly
that fitted preprocessor, the fitted preprocessor is what gets persisted,
and two runs over the same training data produce the same fitted
transformer whatever their test data — so transforming the same test row
twice changes only if the transformer was refitted on different training
data. -/
theorem transformation_fits_on_train_only
    {V F A Arr : Type} (cfg : DataTransformationConfig) (msg rp : String)
    (drop_cols : List String) (fit : Df V → F) (applyT : F → Df V → A)
    (targetMap : V → V) (smt : A → List V → A × List V) (concat : A → List V → Arr)
    (train_df test_df test_df2 : Df V) :
    (initiate_data_transformation cfg ⟨true, msg, rp⟩ drop_cols fit applyT targetMap
        smt concat (.ok train_df) (.ok test_df)).fitted
      = some (fit (dropDfCols (dropDfCols train_df [TARGET_COLUMN]) drop_cols))
    ∧ (initiate_data_transformation cfg ⟨true, msg, rp⟩ drop_cols fit applyT targetMap
        smt concat (.ok train_df) (.ok test_df)).test_arr_pre
      = some (applyT (fit (dropDfCols (dropDfCols train_df [TARGET_COLUMN]) drop_cols))
          (dropDfCols (dropDfCols test_df [TARGET_COLUMN]) drop_cols))
    ∧ (initiate_data_transformation cfg ⟨true, msg, rp⟩ drop_cols fit applyT targetMap
        smt concat (.ok train_df) (.ok test_df)).saved_object
      = (initiate_data_transformation cfg ⟨true, msg, rp⟩ drop_cols fit applyT targetMap
        smt concat (.ok train_df) (.ok test_df)).fitted
    ∧ (initiate_data_transformation cfg ⟨true, msg, rp⟩ drop_cols fit applyT targetMap
        smt concat (.ok train_df) (.ok test_df)).fitted
      = (initiate_data_transformation cfg ⟨true, msg, rp⟩ drop_cols fit applyT targetMap
        smt concat (.ok train_df) (.ok test_df2)).fitted :=
  ⟨rfl, rfl, rfl, rfl⟩

/-- C2: conditional on the five upstream stages succeeding, the pusher
stage — which uploads the model bundle named by the evaluation artifact to
the configured bucket at the fixed registry key — is invoked iff the
evaluation artifact's is_model_accepted flag is true: when the flag is
false run_pipeline returns successfully with no upload performed, and when
it is true the run performs exactly the one upload to the registry key. -/
theorem pusher_invoked_iff_model_accepted
    (st : PipelineStages) (cfg : ModelPusherConfig)
    (upload_outcome : S3Upload → Except PError Unit)
    (ia : DataIngestionArtifact) (va : DataValidationArtifact)
    (ta : DataTransformationArtifact) (ma : ModelTrainerArtifact)
    (ea : ModelEvaluationArtifact)
    (hp : st.pusher = fun a => initiate_model_pusher cfg a upload_outcome)
    (h1 : st.ingestion = .ok ia) (h2 : st.validation ia = .ok va)
    (h3 : st.transformation ia va = .ok ta) (h4 : st.trainer ta = .ok ma)
    (h5 : st.evaluation ia ma = .ok ea) :
    (((run_pipeline st).fst ≠ []) ↔ ea.is_model_accepted = true)
    ∧ (ea.is_model_accepted = false → run_pipeline st = ([], .ok ()))
    ∧ (ea.is_model_accepted = true →
        (run_pipeline st).fst
          = [⟨ea.trained_model_path, cfg.bucket_name, cfg.s3_model_key_path⟩]) := by
  have hrun : run_pipeline st =
      (if !ea.is_model_accepted then ([], .ok ())
       else
        match initiate_model_pusher cfg ea upload_outcome with
        | (ups, .error e) => (ups, .error (.wrapped e))
        | (ups, .ok _) => (ups, .ok ())) := by
    unfold run_pipeline
    simp only [h1, h2, h3, h4, h5, hp]
  cases hacc : ea.is_model_accepted with
  | false =>
    rw [hrun]
    simp [hacc]
  | true =>
    rw [hrun]
    simp only [hacc, Bool.not_true, Bool.false_eq_true, if_false]
    unfold initiate_model_pusher
    cases hu : upload_outcome ⟨ea.trained_model_path, cfg.bucket_name, cfg.s3_model_key_path⟩ <;>
      simp [hu]

/-- C2 witness: a pipeline whose five upstream stages succeed and whose
evaluation artifact carries is_model_accepted = false performs no upload
and returns successfully without invoking the pusher. -/
theorem pusher_invoked_iff_model_accepted_witness :
    (((run_pipeline
        ⟨.ok ⟨"train.csv", "test.csv"⟩,
         fun _ => .ok ⟨true, "Drift not detected", "report.yaml"⟩,
         fun _ _ => .ok ⟨"pre.pkl", "train.npy", "test.npy"⟩,
         fun _ => .ok ⟨"model.pkl", ⟨4/5, 4/5, 4/5⟩⟩,
         fun _ _ => .ok ⟨false, 0, 0, "registry/model.pkl", "model.pkl"⟩,
         fun a => initiate_model_pusher ⟨"bucket", "registry/model.pkl"⟩ a
           (fun _ => .ok ())⟩).fst ≠ [])
      ↔ (⟨false, 0, 0, "registry/model.pkl", "model.pkl"⟩
          : ModelEvaluationArtifact).is_model_accepted = true)
    ∧ ((⟨false, 0, 0, "registry/model.pkl", "model.pkl"⟩
          : ModelEvaluationArtifact).is_model_accepted = false →
        run_pipeline
        ⟨.ok ⟨"train.csv", "test.csv"⟩,
         fun _ => .ok ⟨true, "Drift not detected", "report.yaml"⟩,
         fun _ _ => .ok ⟨"pre.pkl", "train.npy", "test.npy"⟩,
         fun _ => .ok ⟨"model.pkl", ⟨4/5, 4/5, 4/5⟩⟩,
         fun _ _ => .ok ⟨false, 0, 0, "registry/model.pkl", "model.pkl"⟩,
         fun a => initiate_model_pusher ⟨"bucket", "registry/model.pkl"⟩ a
           (fun _ => .ok ())⟩ = ([], .ok ()))
    ∧ ((⟨false, 0, 0, "registry/model.pkl", "model.pkl"⟩
          : ModelEvaluationArtifact).is_model_accepted = true →
        (run_pipeline
        ⟨.ok ⟨"train.csv", "test.csv"⟩,
         fun _ => .ok ⟨true, "Drift not detected", "report.yaml"⟩,
         fun _ _ => .ok ⟨"pre.pkl", "train.npy", "test.npy"⟩,
         fun _ => .ok ⟨"model.pkl", ⟨4/5, 4/5, 4/5⟩⟩,
         fun _ _ => .ok ⟨false, 0, 0, "registry/model.pkl", "model.pkl"⟩,
         fun a => initiate_model_pusher ⟨"bucket", "registry/model.pkl"⟩ a
           (fun _ => .ok ())⟩).fst
          = [⟨(⟨false, 0, 0, "registry/model.pkl", "model.pkl"⟩
                : ModelEvaluationArtifact).trained_model_path,
              "bucket", "registry/model.pkl"⟩]) :=
  pusher_invoked_iff_model_accepted
    ⟨.ok ⟨"train.csv", "test.csv"⟩,
     fun _ => .ok ⟨true, "Drift not detected", "report.yaml"⟩,
     fun _ _ => .ok ⟨"pre.pkl", "train.npy", "test.npy"⟩,
     fun _ => .ok ⟨"model.pkl", ⟨4/5, 4/5, 4/5⟩⟩,
     fun _ _ => .ok ⟨false, 0, 0, "registry/model.pkl", "model.pkl"⟩,
     fun a => initiate_model_pusher ⟨"bucket", "registry/model.pkl"⟩ a
       (fun _ => .ok ())⟩
    ⟨"bucket", "registry/model.pkl"⟩ (fun _ => .ok ())
    ⟨"train.csv", "test.csv"⟩ ⟨true, "Drift not detected", "report.yaml"⟩
    ⟨"pre.pkl", "train.npy", "test.npy"⟩ ⟨"model.pkl", ⟨4/5, 4/5, 4/5⟩⟩
    ⟨false, 0, 0, "registry/model.pkl", "model.pkl"⟩
    rfl rfl rfl rfl rfl rfl
